import Mathlib

/-!
Verification of the runtime-orchestration core of the srt-editor repository
(src/src-tauri/src): the resumable model downloader, the generation-counter
cancellation mechanism, the environment registry probe, the persistent-service
supervisor and the progress-polling bridge, shallowly embedded as pure Lean
functions over explicit filesystem/network/oracle state.

Conventions of the embedding:
* The model directory is an association list from file name to byte size;
  a `.part` sibling is kept in a second association list keyed by the base name.
* The HTTP layer is a function from file name to a response (status code plus
  the list of chunk sizes the body stream yields).
* The global generation counter (an AtomicU64 in the source) is read at every
  validity-check point; it is modelled as an oracle `genAt : Nat → Nat` giving
  the counter value observed at the n-th check executed by the download.
* Progress values written by the worker (f32 percentages in the source) are
  modelled as rationals; the claims about them concern ordering only.
-/

/-- Mirrors struct ModelFileInfo (name, exact byte size, is_lfs) from
sensevoice_transcriber.rs / firered_corrector.rs. -/
structure ModelFileInfo where
  name : String
  size : Nat
  is_lfs : Bool
deriving DecidableEq

/-- SENSEVOICE_SMALL_FILES from sensevoice_transcriber.rs. -/
def SENSEVOICE_SMALL_FILES : List ModelFileInfo :=
  [ { name := "model.pt", size := 936291369, is_lfs := true },
    { name := "chn_jpn_yue_eng_ko_spectok.bpe.model", size := 377341, is_lfs := true },
    { name := "configuration.json", size := 396, is_lfs := false },
    { name := "config.yaml", size := 1855, is_lfs := false },
    { name := "am.mvn", size := 11203, is_lfs := false },
    { name := "tokens.json", size := 352064, is_lfs := false } ]

/-- FIRERED_AED_L_FILES from firered_corrector.rs. -/
def FIRERED_AED_L_FILES : List ModelFileInfo :=
  [ { name := "model.pth.tar", size := 4678597714, is_lfs := true },
    { name := "train_bpe1000.model", size := 251707, is_lfs := true },
    { name := "cmvn.ark", size := 1311, is_lfs := true },
    { name := "dict.txt", size := 71448, is_lfs := false },
    { name := "cmvn.txt", size := 2985, is_lfs := false },
    { name := "configuration.json", size := 86, is_lfs := false } ]

/-- Association-list lookup: file name to byte size. -/
def alookup : List (String × Nat) → String → Option Nat
  | [], _ => none
  | (k, v) :: rest, key => if k = key then some v else alookup rest key

/-- Association-list update (write / truncate-create a file of a given size). -/
def aset : List (String × Nat) → String → Nat → List (String × Nat)
  | [], key, v => [(key, v)]
  | (k, w) :: rest, key, v =>
    if k = key then (key, v) :: rest else (k, w) :: aset rest key v

/-- Association-list removal (delete a file). -/
def aremove : List (String × Nat) → String → List (String × Nat)
  | [], _ => []
  | (k, w) :: rest, key =>
    if k = key then aremove rest key else (k, w) :: aremove rest key

/-- Contents of one model directory: final files and `.part` files, both
mapping a manifest file name to a byte size (the `.part` entry for name `n`
stands for the file `n.part`). -/
structure ModelDirFS where
  files : List (String × Nat)
  parts : List (String × Nat)

/-- One HTTP GET issued by the downloader: the URL and the resume offset of a
`Range: bytes=N-` header when one was attached. -/
structure HttpRequest where
  url : String
  range : Option Nat
deriving DecidableEq

/-- The server's answer for one file: status code and the chunk sizes the body
stream yields (response.chunk() in the source). -/
structure HttpResponse where
  status : Nat
  chunks : List Nat

/-- State threaded through a download run: the model directory, the trace of
network requests issued, the index of the next generation-validity check, and
the running byte total (downloaded_total in the source). -/
structure DLState where
  fs : ModelDirFS
  requests : List HttpRequest
  checkIdx : Nat
  downloadedTotal : Nat

/-- cancel_sensevoice_model_download / cancel_firered_model_download:
fetch_add(1) on the task-id counter. -/
def cancel_model_download (counter : Nat) : Nat := counter + 1

/-- new_sensevoice_model_download_task_id / new_firered_model_download_task_id:
fetch_add(1) and return the new value (new counter, new task id). -/
def new_model_download_task_id (counter : Nat) : Nat × Nat :=
  (counter + 1, counter + 1)

/-- is_sensevoice_model_download_task_valid / is_firered_model_download_task_valid:
the observed counter still equals the task id. -/
def is_model_download_task_valid (counter taskId : Nat) : Bool :=
  counter == taskId

/-- The chunk-streaming loop of download_*_model: for each chunk, first check
task validity (abort with the cancellation error, the chunk is not written),
then write the chunk. Arguments: remaining chunks, next check index, current
`.part` size. Returns final check index, final `.part` size, abort error. -/
def stream_chunks (genAt : Nat → Nat) (taskId : Nat) :
    List Nat → Nat → Nat → Nat × Nat × Option String
  | [], ci, ps => (ci, ps, none)
  | c :: rest, ci, ps =>
    if is_model_download_task_valid (genAt ci) taskId then
      stream_chunks genAt taskId rest (ci + 1) (ps + c)
    else
      (ci + 1, ps, some "下载已取消")

/-- Body of one per-file iteration of download_*_model, after the skip check:
determine the partial size, issue the GET (with Range header when a nonempty
`.part` exists), classify the status, open append/create, stream, verify the
size, and rename `.part` to the final name. Returns the new state and, on
failure, the error that aborts the whole operation. -/
def download_file_body (baseUrl : String) (genAt : Nat → Nat) (taskId : Nat)
    (server : String → HttpResponse) (f : ModelFileInfo) (st : DLState) :
    DLState × Option String :=
  let existing := (alookup st.fs.parts f.name).getD 0
  let req : HttpRequest :=
    { url := baseUrl ++ f.name,
      range := if 0 < existing then some existing else none }
  let st1 : DLState := { st with requests := st.requests ++ [req] }
  let resp := server f.name
  if (200 ≤ resp.status ∧ resp.status ≤ 299) ∨ resp.status = 206 then
    -- 206 resumes appending at the existing offset; any other accepted status
    -- deletes the old `.part` (when present) and creates a fresh empty one.
    let start := if resp.status = 206 then existing else 0
    let st2 : DLState :=
      { st1 with fs := { st1.fs with parts := aset st1.fs.parts f.name start } }
    let r := stream_chunks genAt taskId resp.chunks st2.checkIdx start
    let st3 : DLState :=
      { st2 with
          checkIdx := r.1,
          fs := { st2.fs with parts := aset st2.fs.parts f.name r.2.1 } }
    match r.2.2 with
    | some e => (st3, some e)
    | none =>
      if r.2.1 = f.size then
        ({ st3 with
            fs := { files := aset st3.fs.files f.name f.size,
                    parts := aremove st3.fs.parts f.name },
            downloadedTotal := st3.downloadedTotal + f.size }, none)
      else
        (st3, some ("文件 " ++ f.name ++ " 下载不完整: 期望 " ++
          toString f.size ++ " 字节, 实际 " ++ toString r.2.1 ++ " 字节"))
  else
    (st1, some ("下载 " ++ f.name ++ " 失败: HTTP " ++ toString resp.status))

/-- One per-file iteration of download_*_model: the top-of-loop validity check,
the already-complete skip, then the download body. -/
def download_one_file (baseUrl : String) (genAt : Nat → Nat) (taskId : Nat)
    (server : String → HttpResponse) (f : ModelFileInfo) (st : DLState) :
    DLState × Option String :=
  if is_model_download_task_valid (genAt st.checkIdx) taskId then
    let st1 : DLState := { st with checkIdx := st.checkIdx + 1 }
    match alookup st1.fs.files f.name with
    | some sz =>
      if sz = f.size then
        ({ st1 with downloadedTotal := st1.downloadedTotal + f.size }, none)
      else
        download_file_body baseUrl genAt taskId server f st1
    | none => download_file_body baseUrl genAt taskId server f st1
  else
    ({ st with checkIdx := st.checkIdx + 1 }, some "下载已取消")

/-- The manifest loop of download_*_model. -/
def download_files (baseUrl : String) (genAt : Nat → Nat) (taskId : Nat)
    (server : String → HttpResponse) :
    List ModelFileInfo → DLState → DLState × Except String Unit
  | [], st => (st, Except.ok ())
  | f :: rest, st =>
    match download_one_file baseUrl genAt taskId server f st with
    | (st1, some e) => (st1, Except.error e)
    | (st1, none) => download_files baseUrl genAt taskId server rest st1

/-- The model-hub cache as probed by get_*_model_path / is_*_model_downloaded:
the direct layout, the models/ layout, and the models--org--name layout with
its snapshot directories. A `none` entry is a directory that does not exist. -/
structure HubFS where
  path1 : Option ModelDirFS
  path2 : Option ModelDirFS
  modelsDir : Option ModelDirFS
  snapshots : List ModelDirFS

/-- check_model_files_exist / check_firered_model_files_exist: the directory
exists and both the main weight file and configuration.json exist in it
(existence only — sizes are not inspected). -/
def check_model_files_exist (dir : Option ModelDirFS) (mainWeight : String) : Bool :=
  match dir with
  | none => false
  | some d =>
    (alookup d.files mainWeight).isSome && (alookup d.files "configuration.json").isSome

/-- is_sensevoice_model_downloaded / is_firered_model_downloaded: probe all
cache layouts for the two marker files. -/
def is_model_downloaded (hub : HubFS) (mainWeight : String) : Bool :=
  check_model_files_exist hub.path1 mainWeight ||
  check_model_files_exist hub.path2 mainWeight ||
  (match hub.modelsDir with
   | none => false
   | some md =>
     hub.snapshots.any (fun s => check_model_files_exist (some s) mainWeight) ||
     check_model_files_exist (some md) mainWeight)

/-- get_sensevoice_model_path / get_firered_model_path: resolve the directory
the download operates on — the first existing layout, defaulting to a fresh
empty directory at the direct layout. -/
def get_model_path_fs (hub : HubFS) : ModelDirFS :=
  match hub.path1 with
  | some d => d
  | none =>
    match hub.path2 with
    | some d => d
    | none =>
      match hub.modelsDir with
      | some md =>
        match hub.snapshots with
        | s :: _ => s
        | [] => md
      | none => { files := [], parts := [] }

/-- download_sensevoice_model / download_firered_model, generic in the backend
constants: environment check, already-downloaded fast path, then the per-file
manifest loop. `envReady` is the `.ready` field of the probe result and
`envErrMsg` the backend's environment error string. -/
def download_model (manifest : List ModelFileInfo) (mainWeight modelName : String)
    (baseUrl : String) (envReady : Bool) (hub : HubFS)
    (genAt : Nat → Nat) (taskId : Nat) (server : String → HttpResponse)
    (envErrMsg : String) : DLState × Except String String :=
  let st0 : DLState :=
    { fs := get_model_path_fs hub, requests := [], checkIdx := 0, downloadedTotal := 0 }
  if envReady = false then
    (st0, Except.error envErrMsg)
  else if is_model_downloaded hub mainWeight then
    (st0, Except.ok (modelName ++ " 模型已下载"))
  else
    match download_files baseUrl genAt taskId server manifest st0 with
    | (st1, Except.ok ()) => (st1, Except.ok (modelName ++ " 模型下载成功"))
    | (st1, Except.error e) => (st1, Except.error e)

/-- download_sensevoice_model from sensevoice_transcriber.rs, instantiated. -/
def download_sensevoice_model (envReady : Bool) (hub : HubFS)
    (genAt : Nat → Nat) (taskId : Nat) (server : String → HttpResponse) :
    DLState × Except String String :=
  download_model SENSEVOICE_SMALL_FILES "model.pt" "SenseVoiceSmall"
    "https://modelscope.cn/models/iic/SenseVoiceSmall/resolve/master/"
    envReady hub genAt taskId server "SenseVoice 环境未安装，请先安装环境"

/-- download_firered_model from firered_corrector.rs, instantiated. -/
def download_firered_model (envReady : Bool) (hub : HubFS)
    (genAt : Nat → Nat) (taskId : Nat) (server : String → HttpResponse) :
    DLState × Except String String :=
  download_model FIRERED_AED_L_FILES "model.pth.tar" "FireRedASR-AED-L"
    "https://modelscope.cn/models/FireRedTeam/FireRedASR-AED-L/resolve/master/"
    envReady hub genAt taskId server "FireRedASR 环境未安装，请先安装环境"

/-- Final observable size for a manifest name: the final file when present,
otherwise the `.part` file (0 when neither exists). -/
def dirSizeOf (fs : ModelDirFS) (name : String) : Nat :=
  match alookup fs.files name with
  | some n => n
  | none => (alookup fs.parts name).getD 0

/-- All manifest files present at their exact expected sizes. -/
def all_files_at_exact_size (dir : ModelDirFS) (manifest : List ModelFileInfo) : Bool :=
  manifest.all (fun f => alookup dir.files f.name == some f.size)

/-- Observable filesystem facts about one environment directory, as inspected
by check_env_ready / check_firered_env_ready / check_whisper_env_ready: the
directory exists, its interpreter binary exists, its lib directory exists, and
some lib/python* subdirectory contains site-packages/<marker package>. -/
structure EnvDirFS where
  dirExists : Bool
  pythonExists : Bool
  libExists : Bool
  pythonSubdirHasPkg : Bool
deriving DecidableEq

/-- check_env_ready (sensevoice) / check_firered_env_ready /
check_whisper_env_ready, non-Windows branch: not ready when the directory or
the interpreter is missing; otherwise ready iff the lib directory exists and a
python* subdirectory holds site-packages with the marker package. -/
def check_env_ready (e : EnvDirFS) : Bool :=
  if !e.dirExists || !e.pythonExists then
    false
  else if e.libExists then
    e.pythonSubdirHasPkg
  else
    false

/-- Per-variant probe record (SenseVoiceEnvInfo / FireRedEnvInfo /
WhisperEnvInfo). -/
structure EnvInfo where
  installed : Bool
  ready : Bool
deriving DecidableEq

/-- Probe result (SenseVoiceEnvStatus / FireRedEnvStatus / WhisperEnvStatus). -/
structure EnvStatus where
  uv_installed : Bool
  cpu_env : EnvInfo
  gpu_env : EnvInfo
  active_env : String
  env_exists : Bool
  ready : Bool
  is_gpu : Bool
deriving DecidableEq

/-- The self-healing active-variant transition evaluated by check_sensevoice_env
/ check_firered_env / check_whisper_env: fall back from a non-ready active
variant to the other ready variant or to "none"; adopt a ready variant
(preferring GPU) when none is active. `active` is the trimmed contents of the
active-env marker file ("none" when the file is missing). -/
def resolve_active_env (active : String) (cpuReady gpuReady : Bool) : String :=
  if active = "gpu" ∧ gpuReady = false then
    if cpuReady then "cpu" else "none"
  else if active = "cpu" ∧ cpuReady = false then
    if gpuReady then "gpu" else "none"
  else if active = "none" then
    if gpuReady then "gpu" else if cpuReady then "cpu" else "none"
  else
    active

/-- check_sensevoice_env / check_firered_env / check_whisper_env: probe both
variant directories, run the self-healing transition on the marker, and
assemble the status (including the legacy compatibility fields). -/
def check_env (uvInstalled : Bool) (marker : String) (cpuFS gpuFS : EnvDirFS) : EnvStatus :=
  let cpuReady := check_env_ready cpuFS
  let gpuReady := check_env_ready gpuFS
  let active := resolve_active_env marker cpuReady gpuReady
  { uv_installed := uvInstalled,
    cpu_env := { installed := cpuFS.dirExists, ready := cpuReady },
    gpu_env := { installed := gpuFS.dirExists, ready := gpuReady },
    active_env := active,
    env_exists := cpuFS.dirExists || gpuFS.dirExists,
    ready := cpuReady || gpuReady,
    is_gpu := active == "gpu" }

/-- Side effects performed by switch_firered_env, in execution order. -/
inductive SwitchEvent where
  | stopService : SwitchEvent
  | setActiveEnv : String → SwitchEvent
deriving DecidableEq

/-- switch_firered_env from firered_corrector.rs: refuse when the target
variant is not ready; otherwise stop the running service, then write the new
variant to the active-env marker. The first component is the ordered trace of
side effects. -/
def switch_firered_env (use_gpu : Bool) (cpuFS gpuFS : EnvDirFS) :
    List SwitchEvent × Except String String :=
  let env_type := if use_gpu then "gpu" else "cpu"
  let env_fs := if use_gpu then gpuFS else cpuFS
  if check_env_ready env_fs = false then
    ([], Except.error ((if use_gpu then "GPU" else "CPU") ++ " 环境未安装或不完整"))
  else
    ([SwitchEvent.stopService, SwitchEvent.setActiveEnv env_type],
     Except.ok ("已切换到 " ++ (if use_gpu then "GPU" else "CPU") ++ " 版本"))

/-- Side effects performed by start_service, in execution order. -/
inductive ServiceEvent where
  | writeScript : ServiceEvent
  | spawnWorker : Nat → ServiceEvent
  | sleepMs : Nat → ServiceEvent
  | healthPoll : Nat → ServiceEvent
deriving DecidableEq

/-- The fixed loopback port the FireRedASR service worker binds to. -/
def SERVICE_PORT : Nat := 18765

/-- Maximum health-poll attempts in start_service (the 0..20 wait loop). -/
def SERVICE_START_MAX_ATTEMPTS : Nat := 20

/-- Sleep between health polls in start_service (from_millis(300)). -/
def SERVICE_START_POLL_INTERVAL_MS : Nat := 300

/-- is_service_running from firered_corrector.rs: trust the cached running
flag while the last real check is under the 5-second TTL, otherwise perform a
real health check. -/
def is_service_running (cachedRunning withinTtl realHealth : Bool) : Bool :=
  if cachedRunning && withinTtl then true else realHealth

/-- The startup wait loop of start_service: sleep a fixed interval, poll the
health endpoint, succeed on the first healthy answer, and give up with the
start-timeout error when the attempt budget is exhausted. `healthAt k` is the
health answer observed by the k-th poll. -/
def service_wait_loop (healthAt : Nat → Bool) :
    Nat → Nat → List ServiceEvent × Except String Unit
  | 0, _ => ([], Except.error "服务启动超时")
  | fuel + 1, k =>
    if healthAt k then
      ([ServiceEvent.sleepMs SERVICE_START_POLL_INTERVAL_MS, ServiceEvent.healthPoll k],
       Except.ok ())
    else
      let r := service_wait_loop healthAt fuel (k + 1)
      (ServiceEvent.sleepMs SERVICE_START_POLL_INTERVAL_MS ::
         ServiceEvent.healthPoll k :: r.1, r.2)

/-- start_service from firered_corrector.rs: return at once when the (cached)
health check reports the service running; otherwise rewrite the worker script,
spawn the worker on the fixed port (spawnOk is whether the spawn call itself
succeeds), and run the bounded health-poll loop. -/
def start_service (running : Bool) (spawnOk : Bool) (healthAt : Nat → Bool) :
    List ServiceEvent × Except String Unit :=
  if running then
    ([], Except.ok ())
  else if spawnOk = false then
    ([ServiceEvent.writeScript], Except.error "启动服务失败")
  else
    let r := service_wait_loop healthAt SERVICE_START_MAX_ATTEMPTS 0
    (ServiceEvent.writeScript :: ServiceEvent.spawnWorker SERVICE_PORT :: r.1, r.2)

/-- True exactly on health-poll events. -/
def isHealthPoll : ServiceEvent → Bool
  | ServiceEvent.healthPoll _ => true
  | _ => false

/-- Sleep between progress-file polls in correct_with_firered
(from_millis(100)). -/
def PROGRESS_POLL_INTERVAL_MS : Nat := 100

/-- The progress-forwarding filter of the polling loop of correct_with_firered:
each iteration reads the progress file (`none` = unreadable or unparsable, so
skipped) and forwards the percentage only when it is strictly greater than the
last forwarded one. Returns the sequence of forwarded percentages. Progress
percentages (f32 in the source) are modelled as rationals. -/
def progress_poll_loop : List (Option Rat) → Rat → List Rat
  | [], _ => []
  | none :: rest, last => progress_poll_loop rest last
  | some p :: rest, last =>
    if last < p then p :: progress_poll_loop rest p
    else progress_poll_loop rest last

/-- Initial last_progress of the polling loop in correct_with_firered (2.0). -/
def PROGRESS_POLL_INITIAL : Rat := 2

theorem alookup_aset_self (l : List (String × Nat)) (k : String) (v : Nat) :
    alookup (aset l k v) k = some v := by
  induction l with
  | nil => simp [aset, alookup]
  | cons hd tl ih =>
    by_cases h : hd.1 = k
    · simp [aset, alookup, h]
    · simp [aset, alookup, h, ih]

theorem alookup_aremove_self (l : List (String × Nat)) (k : String) :
    alookup (aremove l k) k = none := by
  induction l with
  | nil => simp [aremove, alookup]
  | cons hd tl ih =>
    by_cases h : hd.1 = k
    · simp [aremove, h, ih]
    · simp [aremove, alookup, h, ih]

theorem stream_chunks_all_valid (genAt : Nat → Nat) (taskId : Nat)
    (h : ∀ i, genAt i = taskId) :
    ∀ (chunks : List Nat) (ci ps : Nat),
      stream_chunks genAt taskId chunks ci ps =
        (ci + chunks.length, ps + chunks.sum, none) := by
  intro chunks
  induction chunks with
  | nil => intro ci ps; simp [stream_chunks]
  | cons c rest ih =>
    intro ci ps
    have hv : is_model_download_task_valid (genAt ci) taskId = true := by
      simp [is_model_download_task_valid, h ci]
    simp only [stream_chunks, hv, if_true, ih]
    have h1 : ci + 1 + rest.length = ci + (c :: rest).length := by
      simp [List.length_cons]; omega
    have h2 : ps + c + rest.sum = ps + (c :: rest).sum := by
      simp [List.sum_cons]; ring
    rw [h1, h2]

/-- Claim C1, amended: for every in-flight download with generation id G, once
the backend's generation counter is advanced past G — which both starting a new
download (new_model_download_task_id) and the cancel operation
(cancel_model_download) do — the running loop observes the mismatch at its next
validity check and terminates with the error "下载已取消", which is the very
same error produced for a user cancellation: superseded and cancelled downloads
are not distinguishable by their error. -/
theorem C1_superseded_terminates_with_cancel_error
    (mainWeight modelName baseUrl envErrMsg : String) (hub : HubFS)
    (genAt : Nat → Nat) (taskId : Nat) (server : String → HttpResponse)
    (f : ModelFileInfo) (rest : List ModelFileInfo)
    (hdl : is_model_downloaded hub mainWeight = false)
    (hgen : ∀ i, taskId < genAt i) :
    (∀ c, c < cancel_model_download c) ∧
    (∀ c, c < (new_model_download_task_id c).1) ∧
    (download_model (f :: rest) mainWeight modelName baseUrl true hub genAt
        taskId server envErrMsg).2 = Except.error "下载已取消" := by
  refine ⟨fun c => by simp [cancel_model_download],
          fun c => by simp [new_model_download_task_id], ?_⟩
  have hv : is_model_download_task_valid (genAt 0) taskId = false := by
    have h0 := hgen 0
    simp only [is_model_download_task_valid, beq_eq_false_iff_ne, ne_eq]
    omega
  simp [download_model, hdl, download_files, download_one_file, hv]

theorem C1_superseded_terminates_with_cancel_error_witness :
    (download_model [⟨"a", 5, false⟩] "model.pt" "M" "u" true
        ⟨none, none, none, []⟩ (fun _ => 2) 1 (fun _ => ⟨200, []⟩) "e").2
      = Except.error "下载已取消" :=
  (C1_superseded_terminates_with_cancel_error "model.pt" "M" "u" "e"
    ⟨none, none, none, []⟩ (fun _ => 2) 1 (fun _ => ⟨200, []⟩) ⟨"a", 5, false⟩ []
    rfl (fun i => by norm_num)).2.2

/-- Claim C1, counterexample to the claim as stated: a download of generation 1
superseded by a new download (counter advanced by new_model_download_task_id)
terminates with exactly the same error as a download of generation 1 aborted by
the user cancel operation (counter advanced by cancel_model_download) — both
yield "下载已取消", so the "superseded" outcome is not distinguishable from the
"cancelled" outcome. -/
theorem C1_counterexample_superseded_error_equals_cancel_error :
    (download_sensevoice_model true ⟨none, none, none, []⟩
        (fun _ => (new_model_download_task_id 1).1) 1 (fun _ => ⟨200, []⟩)).2
      = Except.error "下载已取消" ∧
    (download_sensevoice_model true ⟨none, none, none, []⟩
        (fun _ => cancel_model_download 1) 1 (fun _ => ⟨200, []⟩)).2
      = Except.error "下载已取消" ∧
    (download_sensevoice_model true ⟨none, none, none, []⟩
        (fun _ => (new_model_download_task_id 1).1) 1 (fun _ => ⟨200, []⟩)).2
      = (download_sensevoice_model true ⟨none, none, none, []⟩
          (fun _ => cancel_model_download 1) 1 (fun _ => ⟨200, []⟩)).2 :=
  ⟨rfl, rfl, rfl⟩

/-- Claim C3: for a manifest file with an existing `.part` of size K > 0 (and
the final file absent), and the generation counter untouched, the downloader
issues one GET carrying Range offset K; on a 206 answer it appends to the
`.part` from offset K (the observable final size is K plus the streamed bytes,
and the per-file run succeeds exactly when K plus the streamed bytes meets the
manifest size); on a 200 answer the old `.part` is discarded and the file is
rebuilt from byte zero (final size is exactly the streamed bytes, success
exactly when the streamed bytes meet the manifest size); any other non-success
status fails the operation with the HTTP status inside the error. -/
theorem C3_range_resume_semantics (baseUrl : String) (genAt : Nat → Nat)
    (taskId : Nat) (server : String → HttpResponse) (f : ModelFileInfo)
    (st : DLState) (K : Nat)
    (hpart : alookup st.fs.parts f.name = some K) (hK : 0 < K)
    (hfile : alookup st.fs.files f.name = none)
    (hgen : ∀ i, genAt i = taskId) :
    (download_one_file baseUrl genAt taskId server f st).1.requests
      = st.requests ++ [{ url := baseUrl ++ f.name, range := some K }] ∧
    ((server f.name).status = 206 →
      dirSizeOf (download_one_file baseUrl genAt taskId server f st).1.fs f.name
        = K + (server f.name).chunks.sum ∧
      ((download_one_file baseUrl genAt taskId server f st).2 = none ↔
        K + (server f.name).chunks.sum = f.size)) ∧
    ((server f.name).status = 200 →
      dirSizeOf (download_one_file baseUrl genAt taskId server f st).1.fs f.name
        = (server f.name).chunks.sum ∧
      ((download_one_file baseUrl genAt taskId server f st).2 = none ↔
        (server f.name).chunks.sum = f.size)) ∧
    (¬ (200 ≤ (server f.name).status ∧ (server f.name).status ≤ 299) →
      (server f.name).status ≠ 206 →
      (download_one_file baseUrl genAt taskId server f st).2
        = some ("下载 " ++ f.name ++ " 失败: HTTP " ++ toString (server f.name).status)) := by
  have hv : is_model_download_task_valid (genAt st.checkIdx) taskId = true := by
    simp [is_model_download_task_valid, hgen st.checkIdx]
  have hstream := stream_chunks_all_valid genAt taskId hgen
  constructor
  · -- the single Range request
    simp only [download_one_file, hv, if_true, hfile]
    simp only [download_file_body, hpart, Option.getD_some, if_pos hK, hstream]
    split_ifs <;> rfl
  constructor
  · -- 206: append resume from offset K
    intro h206
    have hcond : (200 ≤ (server f.name).status ∧ (server f.name).status ≤ 299)
        ∨ (server f.name).status = 206 := Or.inr h206
    simp only [download_one_file, hv, if_true, hfile]
    simp only [download_file_body, hpart, Option.getD_some, if_pos hcond,
      if_pos h206, hstream]
    by_cases hsz : K + (server f.name).chunks.sum = f.size
    · simp only [if_pos hsz]
      simp [dirSizeOf, alookup_aset_self, hsz]
    · simp only [if_neg hsz]
      simp [dirSizeOf, hfile, alookup_aset_self, hsz]
  constructor
  · -- 200: part discarded, fresh download from zero
    intro h200
    have h206f : ¬ (server f.name).status = 206 := by omega
    have hcond : (200 ≤ (server f.name).status ∧ (server f.name).status ≤ 299)
        ∨ (server f.name).status = 206 := Or.inl (by omega)
    simp only [download_one_file, hv, if_true, hfile]
    simp only [download_file_body, hpart, Option.getD_some, if_pos hcond,
      if_neg h206f, hstream, Nat.zero_add]
    by_cases hsz : (server f.name).chunks.sum = f.size
    · simp only [if_pos hsz]
      simp [dirSizeOf, alookup_aset_self, hsz]
    · simp only [if_neg hsz]
      simp [dirSizeOf, hfile, alookup_aset_self, hsz]
  · -- other non-success status: HTTP error
    intro hns h206f
    have hcond : ¬ ((200 ≤ (server f.name).status ∧ (server f.name).status ≤ 299)
        ∨ (server f.name).status = 206) := by
      intro hc
      rcases hc with hc | hc
      · exact hns hc
      · exact h206f hc
    simp only [download_one_file, hv, if_true, hfile]
    simp only [download_file_body, hpart, Option.getD_some, if_neg hcond]

theorem C3_range_resume_semantics_witness :
    (download_one_file "u" (fun _ => 7) 7 (fun _ => ⟨206, [3]⟩) ⟨"a", 8, false⟩
        ⟨⟨[], [("a", 5)]⟩, [], 0, 0⟩).1.requests
      = [] ++ [{ url := "u" ++ "a", range := some 5 }] :=
  (C3_range_resume_semantics "u" (fun _ => 7) 7 (fun _ => ⟨206, [3]⟩)
    ⟨"a", 8, false⟩ ⟨⟨[], [("a", 5)]⟩, [], 0, 0⟩ 5 (by decide) (by decide) rfl
    (fun i => rfl)).1

/-- Claim C4: once a file's body stream ends (no abort), the downloader
verifies that the `.part` size (resume offset plus streamed bytes) equals the
manifest size exactly: on mismatch the whole operation fails with the
descriptive size-mismatch error, the final file is not created and the `.part`
is left at the mismatched size; the `.part` is renamed to the final name
exactly when the verification succeeds. -/
theorem C4_size_verification_gates_rename (baseUrl : String) (genAt : Nat → Nat)
    (taskId : Nat) (server : String → HttpResponse) (f : ModelFileInfo)
    (st : DLState) (ps : Nat)
    (hfile : alookup st.fs.files f.name = none)
    (hgen : ∀ i, genAt i = taskId)
    (hok : (200 ≤ (server f.name).status ∧ (server f.name).status ≤ 299)
           ∨ (server f.name).status = 206)
    (hps : ps = (if (server f.name).status = 206
        then (alookup st.fs.parts f.name).getD 0 else 0)
        + (server f.name).chunks.sum) :
    (ps ≠ f.size →
      (download_one_file baseUrl genAt taskId server f st).2
        = some ("文件 " ++ f.name ++ " 下载不完整: 期望 " ++ toString f.size
            ++ " 字节, 实际 " ++ toString ps ++ " 字节") ∧
      alookup (download_one_file baseUrl genAt taskId server f st).1.fs.files f.name
        = none ∧
      alookup (download_one_file baseUrl genAt taskId server f st).1.fs.parts f.name
        = some ps) ∧
    (ps = f.size →
      (download_one_file baseUrl genAt taskId server f st).2 = none ∧
      alookup (download_one_file baseUrl genAt taskId server f st).1.fs.files f.name
        = some f.size ∧
      alookup (download_one_file baseUrl genAt taskId server f st).1.fs.parts f.name
        = none) := by
  have hv : is_model_download_task_valid (genAt st.checkIdx) taskId = true := by
    simp [is_model_download_task_valid, hgen st.checkIdx]
  have hstream := stream_chunks_all_valid genAt taskId hgen
  by_cases h206 : (server f.name).status = 206
  · rw [if_pos h206] at hps
    simp only [download_one_file, hv, if_true, hfile, download_file_body,
      if_pos hok, if_pos h206, hstream, ← hps]
    constructor
    · intro hne
      simp [if_neg hne, hfile, alookup_aset_self]
    · intro heq
      simp [if_pos heq, alookup_aset_self, alookup_aremove_self]
  · rw [if_neg h206] at hps
    rw [Nat.zero_add] at hps
    simp only [download_one_file, hv, if_true, hfile, download_file_body,
      if_pos hok, if_neg h206, hstream, Nat.zero_add, ← hps]
    constructor
    · intro hne
      simp [if_neg hne, hfile, alookup_aset_self]
    · intro heq
      simp [if_pos heq, alookup_aset_self, alookup_aremove_self]

theorem C4_size_verification_gates_rename_witness :
    (download_one_file "u" (fun _ => 7) 7 (fun _ => ⟨206, [2]⟩) ⟨"a", 8, false⟩
        ⟨⟨[], [("a", 5)]⟩, [], 0, 0⟩).2
      = some ("文件 " ++ "a" ++ " 下载不完整: 期望 " ++ toString 8
          ++ " 字节, 实际 " ++ toString 7 ++ " 字节") ∧
    alookup (download_one_file "u" (fun _ => 7) 7 (fun _ => ⟨206, [2]⟩)
        ⟨"a", 8, false⟩ ⟨⟨[], [("a", 5)]⟩, [], 0, 0⟩).1.fs.files "a" = none ∧
    alookup (download_one_file "u" (fun _ => 7) 7 (fun _ => ⟨206, [2]⟩)
        ⟨"a", 8, false⟩ ⟨⟨[], [("a", 5)]⟩, [], 0, 0⟩).1.fs.parts "a" = some 7 :=
  (C4_size_verification_gates_rename "u" (fun _ => 7) 7 (fun _ => ⟨206, [2]⟩)
    ⟨"a", 8, false⟩ ⟨⟨[], [("a", 5)]⟩, [], 0, 0⟩ 7 rfl (fun i => rfl)
    (Or.inr rfl) (by decide)).1 (by decide)

theorem downloaded_of_marker_files (hub : HubFS) (mw : String)
    (hm : (alookup (get_model_path_fs hub).files mw).isSome = true)
    (hc : (alookup (get_model_path_fs hub).files "configuration.json").isSome = true) :
    is_model_downloaded hub mw = true := by
  rcases hub with ⟨p1, p2, md, snaps⟩
  cases p1 with
  | some d => simp_all [get_model_path_fs, is_model_downloaded, check_model_files_exist]
  | none =>
    cases p2 with
    | some d => simp_all [get_model_path_fs, is_model_downloaded, check_model_files_exist]
    | none =>
      cases md with
      | some m =>
        cases snaps with
        | nil => simp_all [get_model_path_fs, is_model_downloaded, check_model_files_exist]
        | cons s rest =>
          simp_all [get_model_path_fs, is_model_downloaded, check_model_files_exist,
            List.any_cons]
      | none => simp_all [get_model_path_fs, alookup]

/-- Claim C5: download is idempotent — whenever every file of the SenseVoice
manifest already exists at its exact expected byte size in the resolved model
directory and the environment is ready, download_sensevoice_model issues zero
network requests and returns the already-downloaded success result. -/
theorem C5_download_idempotent (hub : HubFS) (genAt : Nat → Nat) (taskId : Nat)
    (server : String → HttpResponse)
    (hall : all_files_at_exact_size (get_model_path_fs hub) SENSEVOICE_SMALL_FILES = true) :
    (download_sensevoice_model true hub genAt taskId server).1.requests = [] ∧
    (download_sensevoice_model true hub genAt taskId server).2
      = Except.ok ("SenseVoiceSmall" ++ " 模型已下载") := by
  simp only [all_files_at_exact_size, SENSEVOICE_SMALL_FILES, List.all_cons,
    List.all_nil, Bool.and_eq_true, beq_iff_eq] at hall
  have hdl : is_model_downloaded hub "model.pt" = true :=
    downloaded_of_marker_files hub "model.pt"
      (by rw [hall.1]; rfl) (by rw [hall.2.2.1]; rfl)
  simp [download_sensevoice_model, download_model, hdl]

theorem C5_download_idempotent_witness :
    (download_sensevoice_model true
        ⟨some ⟨[("model.pt", 936291369), ("chn_jpn_yue_eng_ko_spectok.bpe.model", 377341),
                ("configuration.json", 396), ("config.yaml", 1855), ("am.mvn", 11203),
                ("tokens.json", 352064)], []⟩, none, none, []⟩
        (fun _ => 1) 1 (fun _ => ⟨200, []⟩)).1.requests = [] ∧
    (download_sensevoice_model true
        ⟨some ⟨[("model.pt", 936291369), ("chn_jpn_yue_eng_ko_spectok.bpe.model", 377341),
                ("configuration.json", 396), ("config.yaml", 1855), ("am.mvn", 11203),
                ("tokens.json", 352064)], []⟩, none, none, []⟩
        (fun _ => 1) 1 (fun _ => ⟨200, []⟩)).2
      = Except.ok ("SenseVoiceSmall" ++ " 模型已下载") :=
  C5_download_idempotent _ (fun _ => 1) 1 (fun _ => ⟨200, []⟩) (by decide)

/-- Claim C10: the early already-downloaded fast path of download returns
success with zero network requests whenever the main weight file and
configuration.json are both found in any of the probed cache layouts
(is_model_downloaded inspects only the existence of those two files, so the
outcome is independent of their sizes and of the remaining manifest files),
for both the SenseVoice and the FireRedASR downloader. -/
theorem C10_fast_path_ignores_sizes (hubS hubF : HubFS) (genAt : Nat → Nat)
    (taskId : Nat) (server : String → HttpResponse)
    (hdlS : is_model_downloaded hubS "model.pt" = true)
    (hdlF : is_model_downloaded hubF "model.pth.tar" = true) :
    (download_sensevoice_model true hubS genAt taskId server).1.requests = [] ∧
    (download_sensevoice_model true hubS genAt taskId server).2
      = Except.ok ("SenseVoiceSmall" ++ " 模型已下载") ∧
    (download_firered_model true hubF genAt taskId server).1.requests = [] ∧
    (download_firered_model true hubF genAt taskId server).2
      = Except.ok ("FireRedASR-AED-L" ++ " 模型已下载") := by
  refine ⟨?_, ?_, ?_, ?_⟩ <;>
    simp [download_sensevoice_model, download_firered_model, download_model, hdlS, hdlF]

theorem C10_fast_path_ignores_sizes_witness :
    (download_sensevoice_model true
        ⟨none, none, some ⟨[], []⟩, [⟨[("model.pt", 1), ("configuration.json", 1)], []⟩]⟩
        (fun _ => 1) 1 (fun _ => ⟨200, []⟩)).1.requests = [] ∧
    (download_sensevoice_model true
        ⟨none, none, some ⟨[], []⟩, [⟨[("model.pt", 1), ("configuration.json", 1)], []⟩]⟩
        (fun _ => 1) 1 (fun _ => ⟨200, []⟩)).2
      = Except.ok ("SenseVoiceSmall" ++ " 模型已下载") :=
  have h := C10_fast_path_ignores_sizes
    ⟨none, none, some ⟨[], []⟩, [⟨[("model.pt", 1), ("configuration.json", 1)], []⟩]⟩
    ⟨some ⟨[("model.pth.tar", 1), ("configuration.json", 1)], []⟩, none, none, []⟩
    (fun _ => 1) 1 (fun _ => ⟨200, []⟩) (by decide) (by decide)
  ⟨h.1, h.2.1⟩

/-- Claim C2: for every initial marker-file state and every combination of
CPU/GPU readiness, the probe never reports a variant active without reporting
it ready; an active variant that is not ready falls back to the other variant
when that one is ready and otherwise to "none"; and an active value of "none"
adopts a ready variant automatically, preferring GPU. -/
theorem C2_probe_self_healing (uv : Bool) (marker : String) (cpuFS gpuFS : EnvDirFS) :
    ((check_env uv marker cpuFS gpuFS).active_env = "gpu" →
      (check_env uv marker cpuFS gpuFS).gpu_env.ready = true) ∧
    ((check_env uv marker cpuFS gpuFS).active_env = "cpu" →
      (check_env uv marker cpuFS gpuFS).cpu_env.ready = true) ∧
    (marker = "gpu" → check_env_ready gpuFS = false →
      (check_env uv marker cpuFS gpuFS).active_env
        = (if check_env_ready cpuFS then "cpu" else "none")) ∧
    (marker = "cpu" → check_env_ready cpuFS = false →
      (check_env uv marker cpuFS gpuFS).active_env
        = (if check_env_ready gpuFS then "gpu" else "none")) ∧
    (marker = "none" →
      (check_env uv marker cpuFS gpuFS).active_env
        = (if check_env_ready gpuFS then "gpu"
           else if check_env_ready cpuFS then "cpu" else "none")) := by
  by_cases hg : marker = "gpu" <;> by_cases hc : marker = "cpu" <;>
    by_cases hn : marker = "none" <;>
    cases hcpu : check_env_ready cpuFS <;> cases hgpu : check_env_ready gpuFS <;>
    simp_all [check_env, resolve_active_env]

theorem C2_probe_self_healing_witness :
    (check_env true "gpu" ⟨true, true, true, true⟩ ⟨false, false, false, false⟩).active_env
      = "cpu" ∧
    (check_env true "gpu" ⟨true, true, true, true⟩
        ⟨false, false, false, false⟩).cpu_env.ready = true :=
  have h := C2_probe_self_healing true "gpu" ⟨true, true, true, true⟩
    ⟨false, false, false, false⟩
  have ha : (check_env true "gpu" ⟨true, true, true, true⟩
      ⟨false, false, false, false⟩).active_env = "cpu" := by
    rw [h.2.2.1 rfl (by decide)]; decide
  ⟨ha, h.2.1 ha⟩

/-- Claim C9: readiness implies installation — check_env_ready returns false
whenever the environment directory does not exist, so no probe result can
report a variant ready=true with installed=false. -/
theorem C9_ready_implies_installed (uv : Bool) (marker : String)
    (cpuFS gpuFS : EnvDirFS) :
    (∀ e : EnvDirFS, check_env_ready e = true → e.dirExists = true) ∧
    ((check_env uv marker cpuFS gpuFS).cpu_env.ready = true →
      (check_env uv marker cpuFS gpuFS).cpu_env.installed = true) ∧
    ((check_env uv marker cpuFS gpuFS).gpu_env.ready = true →
      (check_env uv marker cpuFS gpuFS).gpu_env.installed = true) := by
  have hbase : ∀ e : EnvDirFS, check_env_ready e = true → e.dirExists = true := by
    intro e he
    by_cases hd : e.dirExists
    · exact hd
    · simp [check_env_ready, hd] at he
  refine ⟨hbase, ?_, ?_⟩
  · intro h
    exact hbase cpuFS (by simpa [check_env] using h)
  · intro h
    exact hbase gpuFS (by simpa [check_env] using h)

theorem C9_ready_implies_installed_witness :
    (check_env true "cpu" ⟨true, true, true, true⟩
        ⟨false, false, false, false⟩).cpu_env.installed = true :=
  (C9_ready_implies_installed true "cpu" ⟨true, true, true, true⟩
    ⟨false, false, false, false⟩).2.1 (by decide)

/-- Claim C6: every successful execution of switch_firered_env performs the
service-stop step strictly before writing the new variant to the
active-environment marker — the trace of side effects is exactly
[stopService, setActiveEnv newVariant]. -/
theorem C6_switch_stops_service_before_marker (use_gpu : Bool)
    (cpuFS gpuFS : EnvDirFS)
    (hok : (switch_firered_env use_gpu cpuFS gpuFS).2.isOk = true) :
    (switch_firered_env use_gpu cpuFS gpuFS).1
      = [SwitchEvent.stopService,
         SwitchEvent.setActiveEnv (if use_gpu then "gpu" else "cpu")] := by
  by_cases h : check_env_ready (if use_gpu then gpuFS else cpuFS) = false
  · simp [switch_firered_env, h, Except.isOk, Except.toBool] at hok
  · simp [switch_firered_env, h]

theorem C6_switch_stops_service_before_marker_witness :
    (switch_firered_env false ⟨true, true, true, true⟩ ⟨false, false, false, false⟩).1
      = [SwitchEvent.stopService, SwitchEvent.setActiveEnv (if false then "gpu" else "cpu")] :=
  C6_switch_stops_service_before_marker false ⟨true, true, true, true⟩
    ⟨false, false, false, false⟩ (by decide)

theorem service_wait_loop_all_fail (healthAt : Nat → Bool) :
    ∀ (fuel k : Nat), (∀ j, j < fuel → healthAt (k + j) = false) →
      (service_wait_loop healthAt fuel k).2 = Except.error "服务启动超时" ∧
      ((service_wait_loop healthAt fuel k).1.filter isHealthPoll).length = fuel := by
  intro fuel
  induction fuel with
  | zero => intro k h; simp [service_wait_loop]
  | succ n ih =>
    intro k h
    have h0 : healthAt k = false := by
      have := h 0 (by omega)
      simpa using this
    have hrest : ∀ j, j < n → healthAt (k + 1 + j) = false := by
      intro j hj
      have := h (j + 1) (by omega)
      rwa [show k + (j + 1) = k + 1 + j by omega] at this
    have hr := ih (k + 1) hrest
    simp [service_wait_loop, h0, isHealthPoll, hr.1, hr.2, List.filter_cons]

/-- Claim C7: start_service returns success immediately with no side effect
(in particular no spawn) when the cached health check reports the service
running; otherwise it first rewrites the worker script and spawns the worker
on the fixed local port, and when the health endpoint never becomes healthy
within the fixed attempt budget the call returns the reported start-timeout
error after exactly that many polls. -/
theorem C7_start_service_behavior (cached ttl real spawnOk : Bool)
    (healthAt : Nat → Bool) :
    (is_service_running cached ttl real = true →
      start_service (is_service_running cached ttl real) spawnOk healthAt
        = ([], Except.ok ())) ∧
    (spawnOk = true →
      (start_service false spawnOk healthAt).1.take 2
        = [ServiceEvent.writeScript, ServiceEvent.spawnWorker SERVICE_PORT]) ∧
    (spawnOk = true → (∀ k, k < SERVICE_START_MAX_ATTEMPTS → healthAt k = false) →
      (start_service false spawnOk healthAt).2 = Except.error "服务启动超时" ∧
      ((start_service false spawnOk healthAt).1.filter isHealthPoll).length
        = SERVICE_START_MAX_ATTEMPTS) := by
  refine ⟨?_, ?_, ?_⟩
  · intro h
    rw [h]
    simp [start_service]
  · intro hs
    subst hs
    simp [start_service]
  · intro hs hfail
    subst hs
    have hall : ∀ j, j < SERVICE_START_MAX_ATTEMPTS → healthAt (0 + j) = false := by
      intro j hj
      simpa [Nat.zero_add] using hfail j hj
    have hr := service_wait_loop_all_fail healthAt SERVICE_START_MAX_ATTEMPTS 0 hall
    constructor
    · simpa [start_service] using hr.1
    · simpa [start_service, isHealthPoll, List.filter_cons] using hr.2

theorem C7_start_service_behavior_witness :
    start_service (is_service_running true true false) true (fun _ => false)
      = ([], Except.ok ()) ∧
    (start_service false true (fun _ => false)).2 = Except.error "服务启动超时" :=
  have h := C7_start_service_behavior true true false true (fun _ => false)
  ⟨h.1 (by decide), (h.2.2 rfl (fun k _ => rfl)).1⟩

theorem progress_poll_loop_gt :
    ∀ (reads : List (Option Rat)) (last x : Rat),
      x ∈ progress_poll_loop reads last → last < x := by
  intro reads
  induction reads with
  | nil =>
    intro last x hx
    simp [progress_poll_loop] at hx
  | cons hd rest ih =>
    intro last x hx
    cases hd with
    | none => exact ih last x (by simpa [progress_poll_loop] using hx)
    | some p =>
      by_cases h : last < p
      · simp only [progress_poll_loop, if_pos h, List.mem_cons] at hx
        rcases hx with rfl | hx
        · exact h
        · exact lt_trans h (ih p x hx)
      · exact ih last x (by simpa [progress_poll_loop, if_neg h] using hx)

theorem progress_poll_loop_chain :
    ∀ (reads : List (Option Rat)) (last : Rat),
      List.Chain' (· < ·) (progress_poll_loop reads last) := by
  intro reads
  induction reads with
  | nil => intro last; simp [progress_poll_loop]
  | cons hd rest ih =>
    intro last
    cases hd with
    | none => simpa [progress_poll_loop] using ih last
    | some p =>
      by_cases h : last < p
      · simp only [progress_poll_loop, if_pos h]
        refine List.chain'_cons'.mpr ⟨?_, ih p⟩
        intro y hy
        exact progress_poll_loop_gt rest p y (List.mem_of_mem_head? hy)
      · simpa [progress_poll_loop, if_neg h] using ih last

/-- Claim C8: the polling-file supervising loop of correct_with_firered polls
on a fixed 100 ms interval and forwards a percentage only when it is strictly
greater than the last forwarded one, so the forwarded sequence of one run is
strictly increasing — monotonic, with no duplicate and no out-of-order
updates — and every forwarded value exceeds the initial 2 percent. -/
theorem C8_progress_updates_monotone (reads : List (Option Rat)) :
    PROGRESS_POLL_INTERVAL_MS = 100 ∧
    List.Pairwise (· < ·) (progress_poll_loop reads PROGRESS_POLL_INITIAL) ∧
    (∀ x ∈ progress_poll_loop reads PROGRESS_POLL_INITIAL,
      PROGRESS_POLL_INITIAL < x) := by
  refine ⟨rfl, ?_, ?_⟩
  · exact List.chain'_iff_pairwise.mp (progress_poll_loop_chain reads _)
  · intro x hx
    exact progress_poll_loop_gt reads _ x hx

theorem C8_progress_updates_monotone_witness :
    PROGRESS_POLL_INITIAL < 5 :=
  (C8_progress_updates_monotone [some 5, some 3, some 7]).2.2 5 (by decide)
